import Mathlib

/-!
Verification of the storybook backend: data model (`models/story.py`,
`models/image.py`, `models/export.py`), the story cache
(`services/cache_service.py`), story generation and mutation
(`services/story_service.py`), image-prompt construction and the
scene-image flow (`services/image_service.py`), the JSON export
(`services/export_service.py`) and the JSON pipe of the model client
(`services/gemini_client.py`).

The Python code is shallowly embedded: dictionaries become association
lists, in-place mutation becomes explicit state passing on `CacheState`,
calls to the external generative model and to the filesystem become
explicit parameters (`Except`/`Bool` valued), `datetime.now()` and
`uuid.uuid4()` become explicit `DateTime`/`Nat` arguments, and fallible
code returns `Except`.  Python string comparison is code-point
lexicographic order, embedded as `lexLt` on `List Char`.
-/

/-- Decimal digit as a character, `chr(48 + n)`. -/
def digitChar (n : Nat) : Char := Char.ofNat (48 + n)

/-- `n` printed in decimal, zero-padded to exactly `w` digits
(most significant first), as Python `'%0*d' % (w, n)` for `n < 10^w`. -/
def padNat : Nat → Nat → List Char
  | 0, _ => []
  | w + 1, n => digitChar (n / 10 ^ w) :: padNat w (n % 10 ^ w)

/-- Strict code-point lexicographic order on character lists: exactly the
order Python uses to compare `str` values. -/
def lexLt : List Char → List Char → Bool
  | [], [] => false
  | [], _ :: _ => true
  | _ :: _, [] => false
  | a :: as, b :: bs => if a < b then true else if b < a then false else lexLt as bs

/-- `s.startswith(p)` on character lists. -/
def lsw : List Char → List Char → Bool
  | _, [] => true
  | [], _ :: _ => false
  | c :: cs, p :: ps => c == p && lsw cs ps

/-- `s.endswith(p)` on character lists. -/
def lew (s p : List Char) : Bool := lsw s.reverse p.reverse

/-- A timestamp as Python `datetime.datetime` stores it (no timezone used
by this codebase). -/
structure DateTime where
  year : Nat
  month : Nat
  day : Nat
  hour : Nat
  minute : Nat
  second : Nat
  microsecond : Nat
deriving DecidableEq

/-- Width bounds under which each field of `DateTime.isoChars` fits its
zero-padded slot.  Real Python datetimes (year ≤ 9999, month ≤ 12, …)
satisfy these. -/
def validDT (d : DateTime) : Prop :=
  d.year < 10000 ∧ d.month < 100 ∧ d.day < 100 ∧ d.hour < 100 ∧
    d.minute < 100 ∧ d.second < 100 ∧ d.microsecond < 1000000

/-- Character content of `datetime.isoformat()`:
`YYYY-MM-DDTHH:MM:SS` followed by `.ffffff` exactly when the microsecond
field is nonzero. -/
def DateTime.isoChars (d : DateTime) : List Char :=
  padNat 4 d.year ++ '-' ::
    (padNat 2 d.month ++ '-' ::
      (padNat 2 d.day ++ 'T' ::
        (padNat 2 d.hour ++ ':' ::
          (padNat 2 d.minute ++ ':' ::
            (padNat 2 d.second ++
              (if d.microsecond = 0 then [] else '.' :: padNat 6 d.microsecond))))))

/-- `datetime.isoformat()` as a string. -/
def DateTime.isoformat (d : DateTime) : String := String.mk d.isoChars

/-- Lexicographic order on the `(year, …, microsecond)` tuple: the
chronological order of timestamps. -/
def natListLt : List Nat → List Nat → Bool
  | [], [] => false
  | [], _ :: _ => true
  | _ :: _, [] => false
  | a :: as, b :: bs => if a < b then true else if b < a then false else natListLt as bs

/-- The comparison key of a timestamp. -/
def DateTime.key (d : DateTime) : List Nat :=
  [d.year, d.month, d.day, d.hour, d.minute, d.second, d.microsecond]

/-- Chronological strict order on timestamps. -/
def dtLt (d₁ d₂ : DateTime) : Bool := natListLt d₁.key d₂.key

/-- Lower-case hexadecimal digit, as used by `str(uuid.UUID)`. -/
def hexDigitChar (n : Nat) : Char :=
  if n < 10 then Char.ofNat (48 + n) else Char.ofNat (87 + n)

/-- The 32 hex nibbles of a 128-bit value, most significant first. -/
def uuidNibbles (r : Nat) : List Nat :=
  (List.range 32).map (fun i => r / 16 ^ (31 - i) % 16)

/-- `str(uuid.uuid4())` for random source `r`: 32 hex digits grouped
8-4-4-4-12, with the version nibble forced to 4 and the variant nibble
forced into 8..b, exactly as `uuid.uuid4` does. -/
def uuid4String (r : Nat) : String :=
  let ns := uuidNibbles (r % 2 ^ 128)
  let ns := ns.set 12 4
  let ns := ns.set 16 (8 + ns.getD 16 0 % 4)
  let cs := ns.map hexDigitChar
  String.mk (cs.take 8 ++ '-' ::
    ((cs.drop 8).take 4 ++ '-' ::
      ((cs.drop 12).take 4 ++ '-' ::
        ((cs.drop 16).take 4 ++ '-' :: cs.drop 20))))

/-- Python `'\n'.join(l)`. -/
def joinNl : List String → String
  | [] => ""
  | [x] => x
  | x :: y :: xs => x ++ "\n" ++ joinNl (y :: xs)

/-- `needle` occurs verbatim as a contiguous substring of `hay`. -/
def strSub (needle hay : String) : Prop :=
  ∃ a b, hay.data = a ++ needle.data ++ b

/-- `models/story.py` `Character`. -/
structure Character where
  name : String
  description : String
  visual_description : String
  role : String
  refined_description : Option String
  character_id : String
deriving DecidableEq

/-- The dictionary produced by `Character.to_dict` (all six keys always
present; `refined_description` may be `null`). -/
structure CharDict where
  name : String
  description : String
  visual_description : String
  role : String
  refined_description : Option String
  character_id : String
deriving DecidableEq

/-- `Character.to_dict`. -/
def Character.to_dict (c : Character) : CharDict :=
  ⟨c.name, c.description, c.visual_description, c.role, c.refined_description,
    c.character_id⟩

/-- `Character(**c)` on a full character dictionary. -/
def Character.ofDict (d : CharDict) : Character :=
  ⟨d.name, d.description, d.visual_description, d.role, d.refined_description,
    d.character_id⟩

/-- `models/story.py` `Scene`. -/
structure Scene where
  scene_number : Int
  title : String
  text : String
  image_prompt : String
  characters_present : List String
  image_url : Option String
  scene_id : String
deriving DecidableEq

/-- The dictionary produced by `Scene.to_dict`. -/
structure SceneDict where
  scene_number : Int
  title : String
  text : String
  image_prompt : String
  characters_present : List String
  image_url : Option String
  scene_id : String
deriving DecidableEq

/-- `Scene.to_dict`. -/
def Scene.to_dict (s : Scene) : SceneDict :=
  ⟨s.scene_number, s.title, s.text, s.image_prompt, s.characters_present,
    s.image_url, s.scene_id⟩

/-- `Scene(**s)` on a full scene dictionary. -/
def Scene.ofDict (d : SceneDict) : Scene :=
  ⟨d.scene_number, d.title, d.text, d.image_prompt, d.characters_present,
    d.image_url, d.scene_id⟩

/-- `models/story.py` `Story`. -/
structure Story where
  title : String
  characters : List Character
  scenes : List Scene
  style : String
  age_group : String
  genre : String
  total_planned_scenes : Int
  story_id : String
  created_at : DateTime
deriving DecidableEq

/-- The dictionary produced by `Story.to_dict`.  Fields read back through
`data.get(...)` by `Story.from_dict` are `Option`-valued so that the
`.get` defaults of the source are represented; `to_dict` always emits
them as `some`.  `created_at` is emitted as the `isoformat` string. -/
structure StoryDict where
  title : Option String
  characters : Option (List CharDict)
  scenes : Option (List SceneDict)
  style : Option String
  age_group : Option String
  genre : Option String
  total_planned_scenes : Option Int
  story_id : Option String
  created_at : String
deriving DecidableEq

/-- `Story.to_dict`. -/
def Story.to_dict (s : Story) : StoryDict :=
  ⟨some s.title, some (s.characters.map Character.to_dict),
    some (s.scenes.map Scene.to_dict), some s.style, some s.age_group,
    some s.genre, some s.total_planned_scenes, some s.story_id,
    s.created_at.isoformat⟩

/-- `Story.from_dict`.  `now` is the value `datetime.now()` produces for
the `created_at` default factory at parse time (the serialized
`created_at` is never read), and `r` feeds the `uuid4` default used when
`story_id` is absent. -/
def Story.from_dict (d : StoryDict) (now : DateTime) (r : Nat) : Story :=
  { title := d.title.getD "Untitled",
    characters := (d.characters.getD []).map Character.ofDict,
    scenes := (d.scenes.getD []).map Scene.ofDict,
    style := d.style.getD "watercolor",
    age_group := d.age_group.getD "7-10",
    genre := d.genre.getD "adventure",
    total_planned_scenes := d.total_planned_scenes.getD 5,
    story_id := d.story_id.getD (uuid4String r),
    created_at := now }

/-- Insert-or-overwrite on an association list, with Python `dict`
semantics: an existing key keeps its position, a new key is appended. -/
def dinsert {α : Type} (k : String) (v : α) : List (String × α) → List (String × α)
  | [] => [(k, v)]
  | (k', v') :: t => if k' = k then (k, v) :: t else (k', v') :: dinsert k v t

/-- Dictionary lookup, first match. -/
def dlookup {α : Type} (k : String) : List (String × α) → Option α
  | [] => none
  | (k', v') :: t => if k' = k then some v' else dlookup k t

/-- Dictionary key removal. -/
def dremove {α : Type} (k : String) (l : List (String × α)) : List (String × α) :=
  l.filter (fun p => p.1 ≠ k)

/-- `f"{story_id}_{name.replace(' ', '_')}"`, the key of the character
map in `cache_service.py`. -/
def charKey (story_id name : String) : String :=
  story_id ++ "_" ++ name.map (fun c => if c = ' ' then '_' else c)

/-- The state owned by `CacheService`: the two module-level in-memory
dictionaries plus the `STORY_FOLDER` directory, one JSON file per story,
keyed by file name. -/
structure CacheState where
  stories : List (String × Story)
  characters : List (String × CharDict)
  disk : List (String × StoryDict)
deriving DecidableEq

/-- `CacheService._save_to_disk`: writes `<story_id>.json`, swallowing
every exception (`diskOk = false` models a failing write: the exception
is logged and the state of the disk is unchanged). -/
def save_to_disk (st : CacheState) (story : Story) (diskOk : Bool) : CacheState :=
  if diskOk then
    { st with disk := dinsert (story.story_id ++ ".json") story.to_dict st.disk }
  else st

/-- `CacheService.store_story`: memory insert, character-map rewrite,
then `_save_to_disk`; returns `True` (the `except` branch of the source
is unreachable: nothing before `_save_to_disk` can raise, and
`_save_to_disk` swallows its own failures). -/
def store_story (st : CacheState) (story : Story) (diskOk : Bool) :
    Bool × CacheState :=
  let st₁ := { st with stories := dinsert story.story_id story st.stories }
  let st₂ := { st₁ with
    characters := story.characters.foldl
      (fun m c => dinsert (charKey story.story_id c.name) c.to_dict m)
      st₁.characters }
  (true, save_to_disk st₂ story diskOk)

/-- `CacheService.get_story`. -/
def get_story (st : CacheState) (story_id : String) : Option Story :=
  dlookup story_id st.stories

/-- One element of the list built by `CacheService.list_stories`. -/
structure StoryListEntry where
  id : String
  title : String
  num_scenes : Nat
  created_at : String
  genre : String
  age_group : String
deriving DecidableEq

/-- The summary dictionary `list_stories` builds for one cache entry. -/
def entryOf (p : String × Story) : StoryListEntry :=
  { id := p.1, title := p.2.title, num_scenes := p.2.scenes.length,
    created_at := p.2.created_at.isoformat, genre := p.2.genre,
    age_group := p.2.age_group }

/-- `CacheService.list_stories`: one summary per cache entry, then
`list.sort(key=lambda x: x['created_at'], reverse=True)` — a stable sort,
descending by the ISO string. -/
def list_stories (st : CacheState) : List StoryListEntry :=
  (st.stories.map entryOf).mergeSort
    (fun a b => ! lexLt a.created_at.data b.created_at.data)

/-- `CacheService.delete_story`: pops the story and its character
entries from memory, then removes `<story_id>.json` when the file
exists; `False` when the identifier is not cached.  `removeOk = false`
models `os.remove` raising (permissions, races): the surrounding
`except` branch then returns `False` — but only after the in-memory
pops already happened, and with the file still on disk.  The dictionary
pops themselves cannot raise, and `os.remove` is only reached when the
file exists. -/
def delete_story (st : CacheState) (story_id : String) (removeOk : Bool) :
    Bool × CacheState :=
  match dlookup story_id st.stories with
  | none => (false, st)
  | some story =>
    let st₁ : CacheState :=
      { stories := dremove story_id st.stories,
        characters := story.characters.foldl
          (fun m c => dremove (charKey story_id c.name) m) st.characters,
        disk := st.disk }
    if (dlookup (story_id ++ ".json") st.disk).isSome then
      if removeOk then
        (true, { st₁ with disk := dremove (story_id ++ ".json") st.disk })
      else (false, st₁)
    else (true, st₁)

/-- JSON values as parsed by `json.loads` (numbers kept as their
lexeme). -/
inductive Json where
  | jnull : Json
  | jbool : Bool → Json
  | jnum : String → Json
  | jstr : String → Json
  | jarr : List Json → Json
  | jobj : List (String × Json) → Json

/-- JSON insignificant whitespace. -/
def isWs (c : Char) : Bool := c = ' ' || c = '\t' || c = '\n' || c = '\r'

/-- Drop leading JSON whitespace. -/
def skipWs : List Char → List Char
  | [] => []
  | c :: cs => if isWs c then skipWs cs else c :: cs

/-- ASCII decimal digit test. -/
def isDig (c : Char) : Bool := '0' ≤ c && c ≤ '9'

/-- ASCII hexadecimal digit test. -/
def isHex (c : Char) : Bool :=
  isDig c || ('a' ≤ c && c ≤ 'f') || ('A' ≤ c && c ≤ 'F')

/-- Value of a hexadecimal digit. -/
def hexVal (c : Char) : Nat :=
  if isDig c then c.toNat - 48 else if 'a' ≤ c then c.toNat - 87 else c.toNat - 55

/-- Single-character JSON string escapes. -/
def escChar (c : Char) : Option Char :=
  if c = '"' then some '"'
  else if c = '\\' then some '\\'
  else if c = '/' then some '/'
  else if c = 'b' then some (Char.ofNat 8)
  else if c = 'f' then some (Char.ofNat 12)
  else if c = 'n' then some '\n'
  else if c = 'r' then some '\r'
  else if c = 't' then some '\t'
  else none

/-- JSON string body parser (the opening quote already consumed). -/
def pString : List Char → List Char → Except String (String × List Char)
  | _, [] => .error "Unterminated string"
  | acc, '\\' :: 'u' :: a :: b :: c :: d :: rest =>
    if isHex a && isHex b && isHex c && isHex d then
      pString
        (Char.ofNat (((hexVal a * 16 + hexVal b) * 16 + hexVal c) * 16 + hexVal d)
          :: acc) rest
    else .error "Invalid unicode escape"
  | acc, '\\' :: e :: rest =>
    match escChar e with
    | some ch => pString (ch :: acc) rest
    | none => .error "Invalid escape"
  | acc, ch :: rest =>
    if ch = '"' then .ok (String.mk acc.reverse, rest)
    else if ch.toNat < 32 then .error "Invalid control character"
    else pString (ch :: acc) rest

/-- JSON number parser, following the RFC 8259 grammar
`-? (0 | [1-9][0-9]*) frac? exp?` that `json.loads` matches. -/
def pNum (cs : List Char) : Except String (Json × List Char) :=
  let (sign, cs₁) := match cs with
    | '-' :: r => (['-'], r)
    | _ => (([] : List Char), cs)
  match cs₁ with
  | [] => .error "Expecting value"
  | c :: r =>
    if ¬ isDig c then .error "Expecting value"
    else
      let (intDs, rest) :=
        if c = '0' then ([c], r) else (c :: r.takeWhile isDig, r.dropWhile isDig)
      let (fracDs, rest₂) :=
        match rest with
        | '.' :: r₂ =>
          if (r₂.takeWhile isDig).isEmpty then (([] : List Char), rest)
          else ('.' :: r₂.takeWhile isDig, r₂.dropWhile isDig)
        | _ => ([], rest)
      let (expDs, rest₃) :=
        match rest₂ with
        | e :: r₃ =>
          if e = 'e' ∨ e = 'E' then
            let (sgn, r₄) := match r₃ with
              | '+' :: r₅ => (['+'], r₅)
              | '-' :: r₅ => (['-'], r₅)
              | _ => (([] : List Char), r₃)
            if (r₄.takeWhile isDig).isEmpty then (([] : List Char), rest₂)
            else (e :: sgn ++ r₄.takeWhile isDig, r₄.dropWhile isDig)
          else ([], rest₂)
        | _ => ([], rest₂)
      .ok (Json.jnum (String.mk (sign ++ intDs ++ fracDs ++ expDs)), rest₃)

mutual

/-- JSON value parser (`fuel` bounds recursion depth; `json.loads` has
its own recursion limit). -/
def pVal : Nat → List Char → Except String (Json × List Char)
  | 0, _ => .error "Too deeply nested"
  | f + 1, cs =>
    match skipWs cs with
    | [] => .error "Expecting value"
    | 'n' :: 'u' :: 'l' :: 'l' :: rest => .ok (Json.jnull, rest)
    | 't' :: 'r' :: 'u' :: 'e' :: rest => .ok (Json.jbool true, rest)
    | 'f' :: 'a' :: 'l' :: 's' :: 'e' :: rest => .ok (Json.jbool false, rest)
    | '"' :: rest =>
      match pString [] rest with
      | .ok (s, r) => .ok (Json.jstr s, r)
      | .error e => .error e
    | '[' :: rest =>
      match skipWs rest with
      | ']' :: r => .ok (Json.jarr [], r)
      | cs₂ =>
        match pElems f cs₂ with
        | .ok (xs, r) => .ok (Json.jarr xs, r)
        | .error e => .error e
    | '\x7b' :: rest =>
      match skipWs rest with
      | '\x7d' :: r => .ok (Json.jobj [], r)
      | cs₂ =>
        match pMembers f cs₂ with
        | .ok (kvs, r) => .ok (Json.jobj kvs, r)
        | .error e => .error e
    | c :: rest =>
      if c = '-' || isDig c then pNum (c :: rest) else .error "Expecting value"

/-- Array elements (at least one), including the closing bracket. -/
def pElems : Nat → List Char → Except String (List Json × List Char)
  | 0, _ => .error "Too deeply nested"
  | f + 1, cs =>
    match pVal f cs with
    | .error e => .error e
    | .ok (v, r) =>
      match skipWs r with
      | ',' :: r₂ =>
        match pElems f r₂ with
        | .ok (xs, r₃) => .ok (v :: xs, r₃)
        | .error e => .error e
      | ']' :: r₂ => .ok ([v], r₂)
      | _ => .error "Expecting comma delimiter"

/-- Object members (at least one), including the closing brace. -/
def pMembers : Nat → List Char → Except String (List (String × Json) × List Char)
  | 0, _ => .error "Too deeply nested"
  | f + 1, cs =>
    match skipWs cs with
    | '"' :: rest =>
      match pString [] rest with
      | .error e => .error e
      | .ok (k, r) =>
        match skipWs r with
        | ':' :: r₂ =>
          match pVal f r₂ with
          | .error e => .error e
          | .ok (v, r₃) =>
            match skipWs r₃ with
            | ',' :: r₄ =>
              match pMembers f r₄ with
              | .ok (kvs, r₅) => .ok ((k, v) :: kvs, r₅)
              | .error e => .error e
            | '\x7d' :: r₄ => .ok ([(k, v)], r₄)
            | _ => .error "Expecting comma delimiter"
        | _ => .error "Expecting colon delimiter"
    | _ => .error "Expecting property name"

end

/-- `json.loads`. -/
def jsonParse (s : String) : Except String Json :=
  match pVal (s.data.length + 1) s.data with
  | .error e => .error e
  | .ok (v, rest) =>
    if skipWs rest = [] then .ok v else .error "Extra data"

/-- The code-fence stripping of `GeminiClient.generate_json`:
`text[7:]` after a `'```json'` test, then `text[:-3]` after a
`'```'` test on the already stripped text. -/
def stripFence (text : String) : String :=
  let t₁ := if lsw text.data ("```json".data) then text.data.drop 7 else text.data
  let t₂ := if lew t₁ ("```".data) then t₁.take (t₁.length - 3) else t₁
  String.mk t₂

/-- `GeminiClient.generate_json`, given the text the model (via
`generate_text`) returned: strip the optional code fence, then
`json.loads`; a parse failure is re-raised to the caller
(`except … raise`), with no retry and no repair. -/
def generate_json (text : String) : Except String Json :=
  jsonParse (stripFence text)

/-- A character entry of the model reply that `_parse_story_data`
accepts: `name`, `description`, `visual_description` are indexed
directly (a missing key would raise, i.e. the parser rejects the
reply); `role` is read with a default. -/
structure CharData where
  name : String
  description : String
  visual_description : String
  role : Option String
deriving DecidableEq

/-- A scene entry of the model reply that `_parse_story_data` accepts:
`scene_number`, `title`, `text`, `image_prompt` indexed directly,
`characters_present` read with a default. -/
structure SceneData where
  scene_number : Int
  title : String
  text : String
  image_prompt : String
  characters_present : Option (List String)
deriving DecidableEq

/-- A model reply that `_parse_story_data` accepts: all four top-level
fields are read with `data.get`, so each may be absent. -/
structure StoryData where
  title : Option String
  characters : Option (List CharData)
  scenes : Option (List SceneData)
  style : Option String
deriving DecidableEq

/-- `StoryService._parse_story_data`.  `rchar`/`rscene` feed the
`uuid4` default factories of the freshly built characters and scenes
(indexed by position), `rstory` the story identifier, and `now` the
`created_at` default factory. -/
def parse_story_data (d : StoryData) (rchar rscene : Nat → Nat) (rstory : Nat)
    (now : DateTime) : Story :=
  { title := d.title.getD "Untitled Story",
    characters := (d.characters.getD []).enum.map (fun p =>
      { name := p.2.name, description := p.2.description,
        visual_description := p.2.visual_description,
        role := p.2.role.getD "supporting", refined_description := none,
        character_id := uuid4String (rchar p.1) }),
    scenes := (d.scenes.getD []).enum.map (fun p =>
      { scene_number := p.2.scene_number, title := p.2.title,
        text := p.2.text, image_prompt := p.2.image_prompt,
        characters_present := p.2.characters_present.getD [],
        image_url := none, scene_id := uuid4String (rscene p.1) }),
    style := d.style.getD "watercolor",
    age_group := "7-10", genre := "adventure", total_planned_scenes := 5,
    story_id := uuid4String rstory, created_at := now }

/-- `StoryService.generate_story`.  `reply` is the outcome of
`generate_json` on the model output: an exception (re-raised by the
service) or an accepted reply.  On success the parsed story is
overwritten with the request's age group, genre, art style and planned
scene count, cached, and returned. -/
def generate_story (st : CacheState) (age_group genre : String)
    (num_scenes : Int) (art_style : String) (reply : Except String StoryData)
    (rchar rscene : Nat → Nat) (rstory : Nat) (now : DateTime)
    (diskOk : Bool) : Except String (Story × CacheState) :=
  match reply with
  | .error e => .error e
  | .ok data =>
    let story₀ := parse_story_data data rchar rscene rstory now
    let story := { story₀ with
      age_group := age_group, genre := genre,
      style := art_style, total_planned_scenes := num_scenes }
    .ok (story, (store_story st story diskOk).2)

/-- One `setattr(char, key, value)` of `StoryService.update_character`,
guarded by `hasattr(char, key)`: keys that are not attributes of
`Character` are skipped. -/
def applyUpdate (c : Character) (kv : String × String) : Character :=
  if kv.1 = "name" then { c with name := kv.2 }
  else if kv.1 = "description" then { c with description := kv.2 }
  else if kv.1 = "visual_description" then { c with visual_description := kv.2 }
  else if kv.1 = "role" then { c with role := kv.2 }
  else if kv.1 = "refined_description" then { c with refined_description := some kv.2 }
  else if kv.1 = "character_id" then { c with character_id := kv.2 }
  else c

/-- The character loop of `update_character`: the first character whose
name matches receives all updates; `none` when no name matches. -/
def updateFirst (nm : String) (updates : List (String × String)) :
    List Character → Option (List Character)
  | [] => none
  | c :: rest =>
    if c.name = nm then some (updates.foldl applyUpdate c :: rest)
    else (updateFirst nm updates rest).map (c :: ·)

/-- `StoryService.update_character`: looks the story up, updates the
first matching character in place and re-stores the story; `False`
(with nothing changed) when the story or the character is missing. -/
def update_character (st : CacheState) (story_id character_name : String)
    (updates : List (String × String)) (diskOk : Bool) : Bool × CacheState :=
  match dlookup story_id st.stories with
  | none => (false, st)
  | some story =>
    match updateFirst character_name updates story.characters with
    | none => (false, st)
    | some chars =>
      let story' := { story with characters := chars }
      (true, (store_story st story' diskOk).2)

/-- The scene dictionary of the model reply accepted by
`generate_scene_from_choice` (every field read with `.get`). -/
structure ChoiceSceneData where
  scene_number : Option Int
  title : Option String
  content : Option String
  text : Option String
  image_prompt : Option String
  characters_present : Option (List String)
deriving DecidableEq

/-- The dictionary `generate_scene_from_choice` returns on success. -/
structure ChoiceResult where
  scene : SceneDict
  is_final : Bool
  scenes_remaining : Int
deriving DecidableEq

/-- `StoryService.generate_scene_from_choice`.  `reply = none` covers
both an exception from `generate_json` (caught, `None` returned) and a
falsy `scene_data`; `rscene` feeds the new scene's `uuid4` default.  On
success the new scene is appended to the cached story, the story is
re-stored, and the budget flags are computed from the scene count
before the append. -/
def generate_scene_from_choice (st : CacheState) (story_id : String)
    (reply : Option ChoiceSceneData) (rscene : Nat) (diskOk : Bool) :
    Option ChoiceResult × CacheState :=
  match dlookup story_id st.stories with
  | none => (none, st)
  | some story =>
    let current_scene_count : Int := story.scenes.length
    let total_planned := story.total_planned_scenes
    let remaining_scenes := total_planned - current_scene_count
    match reply with
    | none => (none, st)
    | some sd =>
      let new_scene : Scene :=
        { scene_number := sd.scene_number.getD (current_scene_count + 1),
          title := sd.title.getD "",
          text := sd.text.getD (sd.content.getD ""),
          image_prompt := sd.image_prompt.getD "",
          characters_present := sd.characters_present.getD [],
          image_url := none,
          scene_id := uuid4String rscene }
      let story' := { story with scenes := story.scenes ++ [new_scene] }
      let st' := (store_story st story' diskOk).2
      (some { scene := new_scene.to_dict,
              is_final := remaining_scenes == 1,
              scenes_remaining := remaining_scenes - 1 }, st')

/-- `models/image.py` `ImageRequest`. -/
structure ImageRequest where
  story_id : String
  scene_number : Int
  custom_prompt : Option String
  style : String
  aspect_ratio : String
  regenerate : Bool
deriving DecidableEq

/-- `models/image.py` `ImageResponse`. -/
structure ImageResponse where
  image_url : String
  scene_number : Int
  success : Bool
  error : Option String
deriving DecidableEq

/-- `ImageService._get_scene`: first scene whose number matches. -/
def getScene (story : Story) (scene_number : Int) : Option Scene :=
  story.scenes.find? (fun s => s.scene_number == scene_number)

/-- `ImageService._get_character`: first character whose name matches. -/
def getCharacter (story : Story) (character_name : String) : Option Character :=
  story.characters.find? (fun c => c.name == character_name)

/-- Python `a or b` on an optional string: `b` when `a` is `None` or
empty. -/
def pyOr (a : Option String) (b : String) : String :=
  match a with
  | some s => if s = "" then b else s
  | none => b

/-- `ImageService._build_image_prompt`.  A truthy custom prompt is
returned unchanged; otherwise each present character that resolves in
the story contributes `f"{name}: {description}"` (refined description
when truthy, else the visual one), joined with newlines into the
templated prompt. -/
def build_image_prompt (story : Story) (scene : Scene)
    (custom_prompt : Option String) : String :=
  match custom_prompt with
  | some p =>
    if p = "" then buildDefaultPrompt story scene else p
  | none => buildDefaultPrompt story scene
where
  buildDefaultPrompt (story : Story) (scene : Scene) : String :=
    let characters_descriptions := scene.characters_present.filterMap
      (fun nm => (getCharacter story nm).map
        (fun c => c.name ++ ": " ++ pyOr c.refined_description c.visual_description))
    "\n        Art Style: " ++ story.style ++
      "\n        \n        Scene Description: " ++ scene.image_prompt ++
      "\n        \n        Characters in Scene:\n        " ++
      joinNl characters_descriptions ++
      "\n        \n        IMPORTANT REQUIREMENTS:" ++
      "\n        1. Maintain EXACT character appearances as described" ++
      "\n        2. Keep the art style consistent as " ++ story.style ++
      "\n        3. Age-appropriate for " ++ story.age_group ++ " year olds" ++
      "\n        4. Bright, engaging colors" ++
      "\n        5. Clear character expressions and actions" ++
      "\n        6. No text or words in the image\n        "

/-- Replace — in place, as the Python object graph does — the scene
found by `_get_scene` (the first with this number) with a copy carrying
the new image URL. -/
def setSceneUrl (n : Int) (url : String) : List Scene → List Scene
  | [] => []
  | s :: rest =>
    if s.scene_number == n then { s with image_url := some url } :: rest
    else s :: setSceneUrl n url rest

/-- `ImageService.generate_scene_image`.  `genRes` is the outcome of
`gemini.generate_image` (`.error` = the client raised, `.ok none` = a
falsy image), `saveRes` the outcome of `_save_image` (`.ok` carries the
timestamped filename, `.error` = it raised).  Every exception of the
`try` block is caught and mapped to a failure response, so the function
is total: it never raises. -/
def generate_scene_image (st : CacheState) (req : ImageRequest)
    (genRes : Except String (Option Unit)) (saveRes : Except String String)
    (diskOk : Bool) : ImageResponse × CacheState :=
  match dlookup req.story_id st.stories with
  | none =>
    ({ image_url := "", scene_number := req.scene_number, success := false,
       error := some "Story not found" }, st)
  | some story =>
    match getScene story req.scene_number with
    | none =>
      ({ image_url := "", scene_number := req.scene_number, success := false,
         error := some "Scene not found" }, st)
    | some scene =>
      let _prompt := build_image_prompt story scene req.custom_prompt
      match genRes with
      | .error e =>
        ({ image_url := "", scene_number := req.scene_number, success := false,
           error := some e }, st)
      | .ok none =>
        ({ image_url := "", scene_number := req.scene_number, success := false,
           error := some "Failed to generate image" }, st)
      | .ok (some _) =>
        match saveRes with
        | .error e =>
          ({ image_url := "", scene_number := req.scene_number,
             success := false, error := some e }, st)
        | .ok filename =>
          let image_url := "/images/" ++ filename
          let story' := { story with
            scenes := setSceneUrl req.scene_number image_url story.scenes }
          let st' := (store_story st story' diskOk).2
          ({ image_url := image_url, scene_number := req.scene_number,
             success := true, error := none }, st')

/-- `models/export.py` `ExportRequest` (images as a scene-index keyed
dictionary of image sources). -/
structure ExportRequest where
  story_id : String
  format : String
  images : List (String × String)
  filename : Option String
  include_images : Bool
  include_metadata : Bool
deriving DecidableEq

/-- The `metadata` block `_export_json` writes. -/
structure ExportMeta where
  exported_at : String
  version : String
  format : String
deriving DecidableEq

/-- The JSON document `ExportService._export_json` writes to disk. -/
structure ExportData where
  story : StoryDict
  images : List (String × String)
  metadata : Option ExportMeta
deriving DecidableEq

/-- `ExportService._export_json`: the file content — the story's
`to_dict` under the `"story"` key, the image map when images are
included, and a timestamped metadata block when requested. -/
def export_json (story : Story) (req : ExportRequest) (now : DateTime) :
    ExportData :=
  { story := story.to_dict,
    images := if req.include_images then req.images else [],
    metadata := if req.include_metadata then
        some { exported_at := now.isoformat, version := "1.0", format := "json" }
      else none }

/-- Concrete timestamp used by the concrete test states below. -/
def exDT : DateTime := ⟨2025, 9, 6, 12, 0, 0, 0⟩

/-- A later concrete timestamp. -/
def exDT2 : DateTime := ⟨2025, 9, 7, 8, 30, 0, 500⟩

/-- A concrete main character. -/
def exChar1 : Character :=
  ⟨"Mia", "a brave girl", "short red hair, green coat", "main", none, "c1"⟩

/-- A concrete supporting character with a refined description. -/
def exChar2 : Character :=
  ⟨"Rex", "a shy dragon", "small blue dragon with golden eyes", "supporting",
    some "tiny sapphire dragon", "c2"⟩

/-- A concrete opening scene listing both characters. -/
def exScene1 : Scene :=
  ⟨1, "Opening", "Once upon a time...", "A meadow at dawn", ["Mia", "Rex"],
    none, "sc1"⟩

/-- A concrete cached story. -/
def exStory : Story :=
  ⟨"The Meadow", [exChar1, exChar2], [exScene1], "watercolor", "7-10",
    "adventure", 3, "story-1", exDT⟩

/-- A concrete cache state holding `exStory`. -/
def exCache : CacheState := ⟨[("story-1", exStory)], [], []⟩

/-- A concrete model reply for `generate_scene_from_choice`. -/
def exChoiceReply : ChoiceSceneData :=
  ⟨none, some "Next", some "ignored", some "More text", some "prompt", none⟩

/-- The result `generate_scene_from_choice` returns on `exCache`,
`exChoiceReply` and random source 0. -/
def exC6res : ChoiceResult :=
  ⟨⟨2, "Next", "More text", "prompt", [], none,
    "00000000-0000-4000-8000-000000000000"⟩, false, 1⟩

/-- A model reply with an empty title and no scenes, accepted by
`_parse_story_data`. -/
def exBadReply : StoryData := ⟨some "", some [], some [], none⟩

/-- A second concrete story, created later than `exStory`. -/
def exStory2 : Story :=
  ⟨"The Cave", [], [], "watercolor", "7-10", "mystery", 5, "story-2", exDT2⟩

/-- A concrete cache state holding two stories, newest first. -/
def exCache2 : CacheState :=
  ⟨[("story-2", exStory2), ("story-1", exStory)], [], []⟩

/-- A concrete cache state holding `exStory` together with its backing
JSON file on disk. -/
def exCacheDisk : CacheState :=
  ⟨[("story-1", exStory)], [], [("story-1" ++ ".json", exStory.to_dict)]⟩

theorem dlookup_dinsert_self {α : Type} (k : String) (v : α)
    (l : List (String × α)) : dlookup k (dinsert k v l) = some v := by
  induction l with
  | nil => simp [dinsert, dlookup]
  | cons p t ih =>
    by_cases h : p.1 = k
    · simp [dinsert, dlookup, h]
    · simp [dinsert, dlookup, h, ih]

theorem dlookup_dremove_self {α : Type} (k : String)
    (l : List (String × α)) : dlookup k (dremove k l) = none := by
  induction l with
  | nil => simp [dremove, dlookup]
  | cons p t ih =>
    by_cases h : p.1 = k
    · simpa [dremove, h] using ih
    · simpa [dremove, dlookup, h] using ih

theorem charOfDict_toDict (c : Character) :
    Character.ofDict (Character.to_dict c) = c := rfl

theorem sceneOfDict_toDict (s : Scene) :
    Scene.ofDict (Scene.to_dict s) = s := rfl

theorem charList_roundtrip (l : List Character) :
    l.map (Character.ofDict ∘ Character.to_dict) = l := by
  induction l with
  | nil => rfl
  | cons c t ih => simp [ih, charOfDict_toDict]

theorem sceneList_roundtrip (l : List Scene) :
    l.map (Scene.ofDict ∘ Scene.to_dict) = l := by
  induction l with
  | nil => rfl
  | cons c t ih => simp [ih, sceneOfDict_toDict]

/-- C1 (counterexample).  The claim that the JSON export round-trips on
*all* fields is false: parsing the exported `"story"` field back with
`Story.from_dict` does not restore `created_at` (the serialized value is
never read; the field is re-created by the `datetime.now()` default
factory).  Concretely, re-parsing the export of `exStory` at a parse
time different from `exStory.created_at` yields a different story. -/
theorem c1_roundtrip_fails_on_created_at :
    Story.from_dict
      (export_json exStory ⟨"story-1", "json", [], none, true, true⟩ exDT2).story
      exDT2 0 ≠ exStory := by
  decide

/-- C1 (amended): parsing the `"story"` field written by the JSON
exporter with `Story.from_dict` restores every field of the story, its
characters and its scenes, except `created_at`, which is replaced by the
parse-time clock value. -/
theorem c1_export_roundtrip_resets_created_at (s : Story)
    (req : ExportRequest) (exportNow parseNow : DateTime) (r : Nat) :
    Story.from_dict (export_json s req exportNow).story parseNow r =
      { s with created_at := parseNow } := by
  cases s with
  | mk title characters scenes style age_group genre tps sid ca =>
    simp [Story.from_dict, Story.to_dict, export_json,
      charList_roundtrip, sceneList_roundtrip]

/-- C9: a failing disk write inside `_save_to_disk` is swallowed, so
`store_story` still returns `True`, the in-memory story and character
maps are updated exactly as on the success path (the stored story is
retrievable), and only the disk is left untouched – the caller cannot
observe the failure. -/
theorem c9_store_story_swallows_disk_failure (st : CacheState)
    (story : Story) :
    (store_story st story false).1 = true ∧
    (store_story st story false).2.stories = (store_story st story true).2.stories ∧
    (store_story st story false).2.characters =
      (store_story st story true).2.characters ∧
    (store_story st story false).2.disk = st.disk ∧
    get_story (store_story st story false).2 story.story_id = some story := by
  refine ⟨rfl, rfl, rfl, rfl, ?_⟩
  simp [store_story, save_to_disk, get_story, dlookup_dinsert_self]

theorem uuid4String_ne_empty (r : Nat) : uuid4String r ≠ "" := by
  simp only [uuid4String]
  intro h
  have h' := congrArg String.data h
  simp at h'

/-- C2: `generate_scene_image` on a story identifier that is not a key
of the cache returns a failure `ImageResponse` with error exactly
`"Story not found"`, and on a cached story with no scene of the
requested number returns a failure response with error exactly
`"Scene not found"`; in both cases the cache is untouched.  The
embedding is a total function — every exception of the source's `try`
block is caught and turned into a failure response, so no input
raises. -/
theorem c2_generate_scene_image_not_found (st : CacheState)
    (req : ImageRequest) (genRes : Except String (Option Unit))
    (saveRes : Except String String) (diskOk : Bool) :
    (dlookup req.story_id st.stories = none →
      generate_scene_image st req genRes saveRes diskOk =
        ({ image_url := "", scene_number := req.scene_number,
           success := false, error := some "Story not found" }, st)) ∧
    (∀ story, dlookup req.story_id st.stories = some story →
      getScene story req.scene_number = none →
      generate_scene_image st req genRes saveRes diskOk =
        ({ image_url := "", scene_number := req.scene_number,
           success := false, error := some "Scene not found" }, st)) := by
  constructor
  · intro h
    simp [generate_scene_image, h]
  · intro story h₁ h₂
    simp [generate_scene_image, h₁, h₂]

/-- Witness for C2: a request against an identifier missing from
`exCache` yields the `"Story not found"` response, and a request for
scene 99 of the cached story yields the `"Scene not found"` response. -/
theorem c2_generate_scene_image_not_found_witness :
    (dlookup "nope" exCache.stories = none ∧
      generate_scene_image exCache ⟨"nope", 1, none, "watercolor", "16:9", false⟩
        (Except.ok none) (Except.error "io") true =
        ({ image_url := "", scene_number := 1, success := false,
           error := some "Story not found" }, exCache)) ∧
    (dlookup "story-1" exCache.stories = some exStory ∧
      getScene exStory 99 = none ∧
      generate_scene_image exCache ⟨"story-1", 99, none, "watercolor", "16:9", false⟩
        (Except.ok none) (Except.error "io") true =
        ({ image_url := "", scene_number := 99, success := false,
           error := some "Scene not found" }, exCache)) := by
  refine ⟨⟨by decide, ?_⟩, ⟨by decide, by decide, ?_⟩⟩
  · exact (c2_generate_scene_image_not_found exCache
      ⟨"nope", 1, none, "watercolor", "16:9", false⟩
      (Except.ok none) (Except.error "io") true).1 (by decide)
  · exact (c2_generate_scene_image_not_found exCache
      ⟨"story-1", 99, none, "watercolor", "16:9", false⟩
      (Except.ok none) (Except.error "io") true).2 exStory (by decide) (by decide)

/-- C3 (counterexample).  The parser `_parse_story_data` accepts a reply
whose scene list is empty and whose title is the empty string
(`exBadReply`); on that accepted reply `generate_story` returns a story
with zero scenes and an empty title, contradicting the claim that every
returned story has exactly one scene and a non-empty title. -/
theorem c3_parser_accepts_sceneless_reply :
    (generate_story exCache "7-10" "adventure" 5 "watercolor"
        (Except.ok exBadReply) (fun _ => 0) (fun _ => 0) 0 exDT2 true).map
      (fun p => (p.1.scenes.length, p.1.title)) = Except.ok (0, "") := by
  rfl

/-- C3 (amended): for every request and every model reply the parser
accepts, `generate_story` returns a story whose scene count equals the
number of scene entries of the accepted reply (so exactly one scene
precisely when the reply lists exactly one, as the prompt instructs),
whose title is the reply's title when present (the default
`"Untitled Story"` otherwise — empty only if the reply itself supplies
an empty title), and whose identifier is a fresh UUID string, never
empty. -/
theorem c3_generate_story_shape (st : CacheState) (age_group genre : String)
    (num_scenes : Int) (art_style : String) (data : StoryData)
    (rchar rscene : Nat → Nat) (rstory : Nat) (now : DateTime)
    (diskOk : Bool) :
    ∃ s st', generate_story st age_group genre num_scenes art_style
        (Except.ok data) rchar rscene rstory now diskOk = Except.ok (s, st') ∧
      s.scenes.length = (data.scenes.getD []).length ∧
      s.title = data.title.getD "Untitled Story" ∧
      s.story_id ≠ "" := by
  refine ⟨_, _, rfl, ?_, rfl, uuid4String_ne_empty rstory⟩
  simp [generate_story, parse_story_data]

/-- C4 (counterexample).  The claim that deleting a cached story always
returns `True` and deletes the backing file is false once the fallible
`os.remove` is modelled: on `exCacheDisk` (story cached, file on disk)
a failing removal makes `delete_story` return `False` for a cached
identifier, with `<story_id>.json` still on disk (and the story already
popped from memory). -/
theorem c4_delete_story_fails_on_remove_error :
    dlookup "story-1" exCacheDisk.stories = some exStory ∧
    (delete_story exCacheDisk "story-1" false).1 = false ∧
    dlookup ("story-1" ++ ".json")
      (delete_story exCacheDisk "story-1" false).2.disk =
      some exStory.to_dict := by
  decide

/-- C4 (amended): for every cached story identifier, when the removal
of the backing file does not raise, `delete_story` returns `True`,
removes the story from memory (a subsequent `get_story` returns the
absence signal and the identifier no longer appears in `list_stories`)
and removes `<story_id>.json` from disk.  The in-memory removal holds
even when `os.remove` raises; in that case (the file being present)
`delete_story` returns `False` and leaves the file on disk. -/
theorem c4_delete_story_removes_everywhere (st : CacheState)
    (story_id : String) (story : Story)
    (h : dlookup story_id st.stories = some story) :
    ((delete_story st story_id true).1 = true ∧
      get_story (delete_story st story_id true).2 story_id = none ∧
      (∀ e ∈ list_stories (delete_story st story_id true).2,
        e.id ≠ story_id) ∧
      dlookup (story_id ++ ".json")
        (delete_story st story_id true).2.disk = none) ∧
    (∀ removeOk,
      get_story (delete_story st story_id removeOk).2 story_id = none ∧
      (∀ e ∈ list_stories (delete_story st story_id removeOk).2,
        e.id ≠ story_id)) ∧
    ((dlookup (story_id ++ ".json") st.disk).isSome = true →
      (delete_story st story_id false).1 = false ∧
      dlookup (story_id ++ ".json")
        (delete_story st story_id false).2.disk =
        dlookup (story_id ++ ".json") st.disk) := by
  have hid_mem : ∀ e ∈ List.mergeSort
      ((dremove story_id st.stories).map entryOf)
      (fun a b => ! lexLt a.created_at.data b.created_at.data),
      e.id ≠ story_id := by
    intro e he
    have hmem := (List.mergeSort_perm _ _).mem_iff.mp he
    obtain ⟨p, hp, rfl⟩ := List.mem_map.mp hmem
    simp only [dremove, List.mem_filter, decide_eq_true_eq] at hp
    exact hp.2
  have hstories : ∀ removeOk,
      (delete_story st story_id removeOk).2.stories =
        dremove story_id st.stories := by
    intro removeOk
    by_cases hf : (dlookup (story_id ++ ".json") st.disk).isSome = true
    · cases removeOk <;> simp [delete_story, h, hf]
    · simp [delete_story, h, hf]
  have hget : ∀ removeOk,
      get_story (delete_story st story_id removeOk).2 story_id = none := by
    intro removeOk
    unfold get_story
    rw [hstories]
    exact dlookup_dremove_self _ _
  have hlist : ∀ removeOk,
      ∀ e ∈ list_stories (delete_story st story_id removeOk).2,
        e.id ≠ story_id := by
    intro removeOk e he
    unfold list_stories at he
    rw [hstories] at he
    exact hid_mem e he
  refine ⟨⟨?_, hget true, hlist true, ?_⟩,
    fun removeOk => ⟨hget removeOk, hlist removeOk⟩, fun hf => ⟨?_, ?_⟩⟩
  · by_cases hf : (dlookup (story_id ++ ".json") st.disk).isSome = true <;>
      simp [delete_story, h, hf]
  · by_cases hf : (dlookup (story_id ++ ".json") st.disk).isSome = true
    · simp [delete_story, h, hf, dlookup_dremove_self]
    · simp only [delete_story, h, hf, if_false, Bool.false_eq_true]
      cases hd : dlookup (story_id ++ ".json") st.disk with
      | none => simp [delete_story, h, hf]
      | some v => exact absurd (by simp [hd]) hf
  · simp [delete_story, h, hf]
  · simp [delete_story, h, hf]

/-- Witness for C4 at the concrete cache `exCacheDisk` (story cached,
file on disk), exercising both the successful-removal and the
failing-removal case. -/
theorem c4_delete_story_removes_everywhere_witness :
    dlookup "story-1" exCacheDisk.stories = some exStory ∧
    (dlookup ("story-1" ++ ".json") exCacheDisk.disk).isSome = true ∧
    ((delete_story exCacheDisk "story-1" true).1 = true ∧
      get_story (delete_story exCacheDisk "story-1" true).2 "story-1" = none ∧
      (∀ e ∈ list_stories (delete_story exCacheDisk "story-1" true).2,
        e.id ≠ "story-1") ∧
      dlookup ("story-1" ++ ".json")
        (delete_story exCacheDisk "story-1" true).2.disk = none) ∧
    ((delete_story exCacheDisk "story-1" false).1 = false ∧
      dlookup ("story-1" ++ ".json")
        (delete_story exCacheDisk "story-1" false).2.disk =
        dlookup ("story-1" ++ ".json") exCacheDisk.disk) :=
  ⟨by decide, by decide,
    (c4_delete_story_removes_everywhere exCacheDisk "story-1" exStory
      (by decide)).1,
    (c4_delete_story_removes_everywhere exCacheDisk "story-1" exStory
      (by decide)).2.2 (by decide)⟩

/-- C6: when `generate_scene_from_choice` succeeds on a cached story
with `n` scenes and planned total `p`, it appends exactly one new scene
to the cached story (the re-stored story is the old one plus one
scene), and reports `is_final` exactly when the budget is reached
(`n + 1 = p`) with `scenes_remaining = p - (n + 1)`. -/
theorem c6_scene_from_choice_budget (st : CacheState) (story_id : String)
    (reply : Option ChoiceSceneData) (r : Nat) (diskOk : Bool)
    (story : Story) (res : ChoiceResult) (st' : CacheState)
    (hs : dlookup story_id st.stories = some story)
    (hid : story.story_id = story_id)
    (hres : generate_scene_from_choice st story_id reply r diskOk =
      (some res, st')) :
    (∃ ns, get_story st' story_id =
      some { story with scenes := story.scenes ++ [ns] }) ∧
    (res.is_final = true ↔
      (story.scenes.length : Int) + 1 = story.total_planned_scenes) ∧
    res.scenes_remaining =
      story.total_planned_scenes - ((story.scenes.length : Int) + 1) := by
  cases reply with
  | none => simp [generate_scene_from_choice, hs] at hres
  | some sd =>
    simp only [generate_scene_from_choice, hs] at hres
    injection hres with h₁ h₂
    injection h₁ with h₁
    subst h₂
    refine ⟨⟨⟨sd.scene_number.getD ((story.scenes.length : Int) + 1),
      sd.title.getD "", sd.text.getD (sd.content.getD ""),
      sd.image_prompt.getD "", sd.characters_present.getD [],
      none, uuid4String r⟩, ?_⟩, ?_, ?_⟩
    · cases diskOk <;>
        simp [store_story, save_to_disk, get_story, hid, dlookup_dinsert_self]
    · rw [← h₁]
      simp only [beq_iff_eq]
      omega
    · rw [← h₁]
      dsimp only
      omega

/-- Witness for C6: on the concrete cache (story with 1 of 3 planned
scenes) a successful continuation leaves 2 scenes cached, `is_final`
false, one scene remaining after the new one. -/
theorem c6_scene_from_choice_budget_witness :
    (dlookup "story-1" exCache.stories = some exStory ∧
      exStory.story_id = "story-1" ∧
      generate_scene_from_choice exCache "story-1" (some exChoiceReply) 0 true =
        (some exC6res,
          (generate_scene_from_choice exCache "story-1" (some exChoiceReply)
            0 true).2)) ∧
    ((∃ ns, get_story
        (generate_scene_from_choice exCache "story-1" (some exChoiceReply)
          0 true).2 "story-1" =
        some { exStory with scenes := exStory.scenes ++ [ns] }) ∧
      (exC6res.is_final = true ↔
        (exStory.scenes.length : Int) + 1 = exStory.total_planned_scenes) ∧
      exC6res.scenes_remaining =
        exStory.total_planned_scenes - ((exStory.scenes.length : Int) + 1)) :=
  ⟨⟨by decide, by decide, rfl⟩,
    c6_scene_from_choice_budget exCache "story-1" (some exChoiceReply) 0 true
      exStory exC6res _ (by decide) (by decide) rfl⟩

theorem updateFirst_of_not_mem (nm : String) (u : List (String × String))
    (l : List Character) (h : ∀ c ∈ l, c.name ≠ nm) :
    updateFirst nm u l = none := by
  induction l with
  | nil => rfl
  | cons c t ih =>
    have hc : c.name ≠ nm := h c (by simp)
    simp [updateFirst, hc, ih (fun x hx => h x (by simp [hx]))]

theorem updateFirst_split (nm : String) (u : List (String × String))
    (pre : List Character) (c : Character) (post : List Character)
    (hpre : ∀ x ∈ pre, x.name ≠ nm) (hc : c.name = nm) :
    updateFirst nm u (pre ++ c :: post) =
      some (pre ++ u.foldl applyUpdate c :: post) := by
  induction pre with
  | nil => simp [updateFirst, hc]
  | cons x xs ih =>
    have hx : x.name ≠ nm := hpre x (by simp)
    simp [updateFirst, hx, ih (fun y hy => hpre y (by simp [hy]))]

theorem foldl_applyUpdate_frame {α : Type} (f : Character → α) (key : String)
    (hf : ∀ c kv, kv.1 ≠ key → f (applyUpdate c kv) = f c)
    (u : List (String × String)) (c : Character)
    (h : key ∉ u.map Prod.fst) : f (u.foldl applyUpdate c) = f c := by
  induction u generalizing c with
  | nil => rfl
  | cons kv t ih =>
    simp only [List.map_cons, List.mem_cons, not_or] at h
    rw [List.foldl_cons, ih _ h.2, hf _ _ (fun he => h.1 he.symm)]

/-- C10: `update_character` is atomic on failure — a missing story or a
story with no character of the given name yields `False` with the whole
cache (hence the story, all its characters and scenes) unchanged — and
on success the re-stored story differs from the old one only in that
the first character whose name matches received the updates, where each
update touches exactly the attribute it names (keys that are not
`Character` attributes are skipped), so every attribute not named in
the updates map is unchanged. -/
theorem c10_update_character_frame (st : CacheState) (sid nm : String)
    (updates : List (String × String)) (diskOk : Bool) :
    (dlookup sid st.stories = none →
      update_character st sid nm updates diskOk = (false, st)) ∧
    (∀ story, dlookup sid st.stories = some story →
      (∀ c ∈ story.characters, c.name ≠ nm) →
      update_character st sid nm updates diskOk = (false, st)) ∧
    (∀ story, dlookup sid st.stories = some story → story.story_id = sid →
      ∀ pre c post, story.characters = pre ++ c :: post →
      (∀ x ∈ pre, x.name ≠ nm) → c.name = nm →
      (update_character st sid nm updates diskOk).1 = true ∧
      get_story (update_character st sid nm updates diskOk).2 sid =
        some { story with
          characters := pre ++ updates.foldl applyUpdate c :: post } ∧
      ("name" ∉ updates.map Prod.fst →
        (updates.foldl applyUpdate c).name = c.name) ∧
      ("description" ∉ updates.map Prod.fst →
        (updates.foldl applyUpdate c).description = c.description) ∧
      ("visual_description" ∉ updates.map Prod.fst →
        (updates.foldl applyUpdate c).visual_description =
          c.visual_description) ∧
      ("role" ∉ updates.map Prod.fst →
        (updates.foldl applyUpdate c).role = c.role) ∧
      ("refined_description" ∉ updates.map Prod.fst →
        (updates.foldl applyUpdate c).refined_description =
          c.refined_description) ∧
      ("character_id" ∉ updates.map Prod.fst →
        (updates.foldl applyUpdate c).character_id = c.character_id)) := by
  refine ⟨?_, ?_, ?_⟩
  · intro h
    simp [update_character, h]
  · intro story h hn
    simp [update_character, h, updateFirst_of_not_mem nm updates _ hn]
  · intro story h hid pre c post hsplit hpre hc
    have hupd := updateFirst_split nm updates pre c post hpre hc
    refine ⟨?_, ?_, ?_, ?_, ?_, ?_, ?_, ?_⟩
    · simp [update_character, h, hsplit, hupd]
    · cases diskOk <;>
        simp [update_character, h, hsplit, hupd, store_story, save_to_disk,
          get_story, hid, dlookup_dinsert_self]
    · exact foldl_applyUpdate_frame (fun x => x.name) "name"
        (fun c kv hk => by
          unfold applyUpdate
          split_ifs <;> first | rfl | exact absurd (by assumption) hk)
        updates c
    · exact foldl_applyUpdate_frame (fun x => x.description) "description"
        (fun c kv hk => by
          unfold applyUpdate
          split_ifs <;> first | rfl | exact absurd (by assumption) hk)
        updates c
    · exact foldl_applyUpdate_frame (fun x => x.visual_description)
        "visual_description"
        (fun c kv hk => by
          unfold applyUpdate
          split_ifs <;> first | rfl | exact absurd (by assumption) hk)
        updates c
    · exact foldl_applyUpdate_frame (fun x => x.role) "role"
        (fun c kv hk => by
          unfold applyUpdate
          split_ifs <;> first | rfl | exact absurd (by assumption) hk)
        updates c
    · exact foldl_applyUpdate_frame (fun x => x.refined_description)
        "refined_description"
        (fun c kv hk => by
          unfold applyUpdate
          split_ifs <;> first | rfl | exact absurd (by assumption) hk)
        updates c
    · exact foldl_applyUpdate_frame (fun x => x.character_id) "character_id"
        (fun c kv hk => by
          unfold applyUpdate
          split_ifs <;> first | rfl | exact absurd (by assumption) hk)
        updates c

/-- Witness for C10: updating `Rex` with one real attribute and one
unknown key succeeds on `exCache`; the unnamed attributes keep their
values. -/
theorem c10_update_character_frame_witness :
    (dlookup "story-1" exCache.stories = some exStory ∧
      exStory.story_id = "story-1" ∧
      exStory.characters = [exChar1] ++ exChar2 :: [] ∧
      (∀ x ∈ [exChar1], x.name ≠ "Rex") ∧ exChar2.name = "Rex") ∧
    ((update_character exCache "story-1" "Rex"
        [("visual_description", "a big red dragon"), ("favorite_food", "tacos")]
        true).1 = true ∧
      get_story (update_character exCache "story-1" "Rex"
        [("visual_description", "a big red dragon"), ("favorite_food", "tacos")]
        true).2 "story-1" =
        some { exStory with characters := [exChar1] ++
          ([("visual_description", "a big red dragon"),
            ("favorite_food", "tacos")].foldl applyUpdate exChar2) :: [] } ∧
      ("name" ∉ [("visual_description", "a big red dragon"),
          ("favorite_food", "tacos")].map Prod.fst →
        ([("visual_description", "a big red dragon"),
          ("favorite_food", "tacos")].foldl applyUpdate exChar2).name =
          exChar2.name) ∧
      ("description" ∉ [("visual_description", "a big red dragon"),
          ("favorite_food", "tacos")].map Prod.fst →
        ([("visual_description", "a big red dragon"),
          ("favorite_food", "tacos")].foldl applyUpdate exChar2).description =
          exChar2.description) ∧
      ("visual_description" ∉ [("visual_description", "a big red dragon"),
          ("favorite_food", "tacos")].map Prod.fst →
        ([("visual_description", "a big red dragon"),
          ("favorite_food", "tacos")].foldl applyUpdate
            exChar2).visual_description = exChar2.visual_description) ∧
      ("role" ∉ [("visual_description", "a big red dragon"),
          ("favorite_food", "tacos")].map Prod.fst →
        ([("visual_description", "a big red dragon"),
          ("favorite_food", "tacos")].foldl applyUpdate exChar2).role =
          exChar2.role) ∧
      ("refined_description" ∉ [("visual_description", "a big red dragon"),
          ("favorite_food", "tacos")].map Prod.fst →
        ([("visual_description", "a big red dragon"),
          ("favorite_food", "tacos")].foldl applyUpdate
            exChar2).refined_description = exChar2.refined_description) ∧
      ("character_id" ∉ [("visual_description", "a big red dragon"),
          ("favorite_food", "tacos")].map Prod.fst →
        ([("visual_description", "a big red dragon"),
          ("favorite_food", "tacos")].foldl applyUpdate exChar2).character_id =
          exChar2.character_id)) :=
  ⟨⟨by decide, by decide, by decide, by decide, by decide⟩,
    (c10_update_character_frame exCache "story-1" "Rex"
      [("visual_description", "a big red dragon"), ("favorite_food", "tacos")]
      true).2.2 exStory (by decide) (by decide) [exChar1] exChar2 []
      (by decide) (by decide) (by decide)⟩

theorem lsw_iff (s p : List Char) : lsw s p = true ↔ ∃ r, s = p ++ r := by
  induction p generalizing s with
  | nil =>
    cases s <;> simp [lsw]
  | cons q ps ih =>
    cases s with
    | nil => simp [lsw]
    | cons c cs =>
      simp [lsw, ih, List.cons_eq_cons]

theorem lew_iff (s q : List Char) : lew s q = true ↔ ∃ r, s = r ++ q := by
  unfold lew
  rw [lsw_iff]
  constructor
  · rintro ⟨r, hr⟩
    refine ⟨r.reverse, ?_⟩
    have h := congrArg List.reverse hr
    simpa [List.reverse_append] using h
  · rintro ⟨r, rfl⟩
    exact ⟨r.reverse, by simp⟩

/-- C5: the only repair `generate_json` applies to the model text is
removal of a leading `'```json'` and of a trailing `'```'` — what
remains is a contiguous substring of the input — and the result is
exactly `json.loads` of that remainder, so a text whose stripped form is
not valid JSON makes `generate_json` propagate the parse error
unchanged: there is no retry and no other repair. -/
theorem c5_generate_json_strips_only_fence (t : String) :
    (∃ pre post, t.data = pre ++ (stripFence t).data ++ post ∧
      (pre = "```json".data ∨ pre = []) ∧
      (post = "```".data ∨ post = [])) ∧
    generate_json t = jsonParse (stripFence t) := by
  refine ⟨?_, rfl⟩
  by_cases h1 : lsw t.data ("```json".data) = true
  · obtain ⟨r, hr⟩ := (lsw_iff _ _).mp h1
    have hlen7 : ("```json".data).length = 7 := rfl
    have hdrop : t.data.drop 7 = r := by
      conv_lhs => rw [hr, ← hlen7]
      exact List.drop_left _ _
    by_cases h2 : lew (t.data.drop 7) ("```".data) = true
    · obtain ⟨r₂, hr₂⟩ := (lew_iff _ _).mp h2
      have htake : (t.data.drop 7).take ((t.data.drop 7).length - 3) = r₂ := by
        rw [hr₂]
        have hl : (r₂ ++ "```".data).length - 3 = r₂.length := by simp
        rw [hl]
        exact List.take_left _ _
      refine ⟨"```json".data, "```".data, ?_, Or.inl rfl, Or.inl rfl⟩
      have hsf : (stripFence t).data = r₂ := by
        simp only [stripFence, h1, if_pos, h2]
        exact htake
      rw [hsf, hr]
      rw [hdrop] at hr₂
      rw [hr₂, List.append_assoc]
    · refine ⟨"```json".data, [], ?_, Or.inl rfl, Or.inr rfl⟩
      have hsf : (stripFence t).data = t.data.drop 7 := by
        simp [stripFence, h1, h2]
      rw [hsf, List.append_nil, hdrop, hr]
  · by_cases h2 : lew t.data ("```".data) = true
    · obtain ⟨r₂, hr₂⟩ := (lew_iff _ _).mp h2
      have htake : t.data.take (t.data.length - 3) = r₂ := by
        rw [hr₂]
        have hl : (r₂ ++ "```".data).length - 3 = r₂.length := by simp
        rw [hl]
        exact List.take_left _ _
      refine ⟨[], "```".data, ?_, Or.inr rfl, Or.inl rfl⟩
      have hsf : (stripFence t).data = r₂ := by
        simpa [stripFence, h1, h2] using htake
      rw [hsf, List.nil_append, hr₂]
    · refine ⟨[], [], ?_, Or.inr rfl, Or.inr rfl⟩
      have hsf : (stripFence t).data = t.data := by
        simp [stripFence, h1, h2]
      rw [hsf, List.nil_append, List.append_nil]

theorem strSub_self (s : String) : strSub s s := ⟨[], [], by simp⟩

theorem strSub_empty (s : String) : strSub "" s := ⟨[], s.data, by simp⟩

theorem strSub_append_left {n A : String} (B : String) (h : strSub n A) :
    strSub n (A ++ B) := by
  obtain ⟨a, b, ha⟩ := h
  exact ⟨a, b ++ B.data, by simp [String.data_append, ha]⟩

theorem strSub_append_right {n B : String} (A : String) (h : strSub n B) :
    strSub n (A ++ B) := by
  obtain ⟨a, b, hb⟩ := h
  exact ⟨A.data ++ a, b, by simp [String.data_append, hb]⟩

theorem strSub_trans {x y z : String} (h₁ : strSub x y) (h₂ : strSub y z) :
    strSub x z := by
  obtain ⟨a, b, ha⟩ := h₁
  obtain ⟨c, d, hc⟩ := h₂
  exact ⟨c ++ a, b ++ d, by simp [hc, ha]⟩

theorem joinNl_mem_strSub {x : String} {l : List String} (h : x ∈ l) :
    strSub x (joinNl l) := by
  induction l with
  | nil => simp at h
  | cons y ys ih =>
    cases ys with
    | nil =>
      simp at h
      subst h
      exact strSub_self _
    | cons z rest =>
      rcases List.mem_cons.mp h with h' | h'
      · subst h'
        exact strSub_append_left _ (strSub_append_left _ (strSub_self _))
      · exact strSub_append_right _ (ih h')

/-- C8: with no custom prompt, for a scene listing two present character
names that both resolve against the story, the constructed image prompt
contains both characters' names and both descriptions — the refined
description when set, otherwise the visual description — verbatim as
substrings.  (When a refined description is set but empty, the code
falls back to the visual description and the empty refined description
is trivially a substring.) -/
theorem c8_image_prompt_contains_both_characters (story : Story)
    (scene : Scene) (n₁ n₂ : String) (c₁ c₂ : Character)
    (h0 : scene.characters_present = [n₁, n₂])
    (h1 : getCharacter story n₁ = some c₁)
    (h2 : getCharacter story n₂ = some c₂) :
    strSub c₁.name (build_image_prompt story scene none) ∧
    strSub (c₁.refined_description.getD c₁.visual_description)
      (build_image_prompt story scene none) ∧
    strSub c₂.name (build_image_prompt story scene none) ∧
    strSub (c₂.refined_description.getD c₂.visual_description)
      (build_image_prompt story scene none) := by
  have hd : scene.characters_present.filterMap
      (fun nm => (getCharacter story nm).map
        (fun c => c.name ++ ": " ++ pyOr c.refined_description c.visual_description)) =
      [c₁.name ++ ": " ++ pyOr c₁.refined_description c₁.visual_description,
       c₂.name ++ ": " ++ pyOr c₂.refined_description c₂.visual_description] := by
    rw [h0]
    simp [h1, h2]
  have key : ∀ e : String,
      strSub e (joinNl
        [c₁.name ++ ": " ++ pyOr c₁.refined_description c₁.visual_description,
         c₂.name ++ ": " ++ pyOr c₂.refined_description c₂.visual_description]) →
      strSub e (build_image_prompt story scene none) := by
    intro e he
    unfold build_image_prompt build_image_prompt.buildDefaultPrompt
    rw [hd]
    repeat first
      | exact strSub_append_right _ he
      | apply strSub_append_left
  have hdesc : ∀ c : Character,
      strSub (c.refined_description.getD c.visual_description)
        (pyOr c.refined_description c.visual_description) := by
    intro c
    cases hrc : c.refined_description with
    | none => simp [pyOr]; exact strSub_self _
    | some rd =>
      by_cases hrd : rd = ""
      · subst hrd
        simp [pyOr]
        exact strSub_empty _
      · simp [pyOr, hrd]
        exact strSub_self _
  have hm₁ : strSub
      (c₁.name ++ ": " ++ pyOr c₁.refined_description c₁.visual_description)
      (joinNl
        [c₁.name ++ ": " ++ pyOr c₁.refined_description c₁.visual_description,
         c₂.name ++ ": " ++ pyOr c₂.refined_description c₂.visual_description]) :=
    joinNl_mem_strSub (by simp)
  have hm₂ : strSub
      (c₂.name ++ ": " ++ pyOr c₂.refined_description c₂.visual_description)
      (joinNl
        [c₁.name ++ ": " ++ pyOr c₁.refined_description c₁.visual_description,
         c₂.name ++ ": " ++ pyOr c₂.refined_description c₂.visual_description]) :=
    joinNl_mem_strSub (by simp)
  refine ⟨?_, ?_, ?_, ?_⟩
  · exact key _ (strSub_trans
      (strSub_append_left _ (strSub_append_left _ (strSub_self _))) hm₁)
  · exact key _ (strSub_trans (strSub_append_right _ (hdesc c₁)) hm₁)
  · exact key _ (strSub_trans
      (strSub_append_left _ (strSub_append_left _ (strSub_self _))) hm₂)
  · exact key _ (strSub_trans (strSub_append_right _ (hdesc c₂)) hm₂)

/-- Witness for C8 on the concrete story: scene 1 lists `Mia` and
`Rex`, both resolving in `exStory`. -/
theorem c8_image_prompt_contains_both_characters_witness :
    (exScene1.characters_present = ["Mia", "Rex"] ∧
      getCharacter exStory "Mia" = some exChar1 ∧
      getCharacter exStory "Rex" = some exChar2) ∧
    (strSub exChar1.name (build_image_prompt exStory exScene1 none) ∧
      strSub (exChar1.refined_description.getD exChar1.visual_description)
        (build_image_prompt exStory exScene1 none) ∧
      strSub exChar2.name (build_image_prompt exStory exScene1 none) ∧
      strSub (exChar2.refined_description.getD exChar2.visual_description)
        (build_image_prompt exStory exScene1 none)) :=
  ⟨⟨by decide, by decide, by decide⟩,
    c8_image_prompt_contains_both_characters exStory exScene1 "Mia" "Rex"
      exChar1 exChar2 (by decide) (by decide) (by decide)⟩

theorem lexLt_irrefl (l : List Char) : lexLt l l = false := by
  induction l with
  | nil => rfl
  | cons c cs ih => simp [lexLt, ih]

theorem lexLt_cons_same (c : Char) (a b : List Char) :
    lexLt (c :: a) (c :: b) = lexLt a b := by
  simp [lexLt]

theorem lexLt_cons_iff (x y : Char) (xs ys : List Char) :
    lexLt (x :: xs) (y :: ys) = true ↔
      x < y ∨ (x = y ∧ lexLt xs ys = true) := by
  simp only [lexLt]
  rcases lt_trichotomy x y with h | h | h
  · simp [h]
  · subst h
    simp [lt_irrefl]
  · have hne : x ≠ y := ne_of_gt h
    have h' : ¬ x < y := not_lt.mpr (le_of_lt h)
    simp [h', h, hne]

theorem lexLt_trans {a b c : List Char} (h₁ : lexLt a b = true)
    (h₂ : lexLt b c = true) : lexLt a c = true := by
  induction a generalizing b c with
  | nil =>
    cases b with
    | nil => simp [lexLt] at h₁
    | cons y ys =>
      cases c with
      | nil => simp [lexLt] at h₂
      | cons z zs => rfl
  | cons x xs ih =>
    cases b with
    | nil => simp [lexLt] at h₁
    | cons y ys =>
      cases c with
      | nil => simp [lexLt] at h₂
      | cons z zs =>
        rw [lexLt_cons_iff] at h₁ h₂ ⊢
        rcases h₁ with h | ⟨rfl, h⟩
        · rcases h₂ with h' | ⟨rfl, h'⟩
          · exact Or.inl (lt_trans h h')
          · exact Or.inl h
        · rcases h₂ with h' | ⟨rfl, h'⟩
          · exact Or.inl h'
          · exact Or.inr ⟨rfl, ih h h'⟩

theorem lexLt_eq_of_not {a b : List Char} (h₁ : lexLt a b = false)
    (h₂ : lexLt b a = false) : a = b := by
  induction a generalizing b with
  | nil =>
    cases b with
    | nil => rfl
    | cons y ys => simp [lexLt] at h₁
  | cons x xs ih =>
    cases b with
    | nil => simp [lexLt] at h₂
    | cons y ys =>
      have h₁' : ¬ (x < y ∨ (x = y ∧ lexLt xs ys = true)) := by
        rw [← lexLt_cons_iff]
        simp [h₁]
      have h₂' : ¬ (y < x ∨ (y = x ∧ lexLt ys xs = true)) := by
        rw [← lexLt_cons_iff]
        simp [h₂]
      push_neg at h₁' h₂'
      have hxy : x = y := le_antisymm h₂'.1 h₁'.1
      subst hxy
      have hxs : lexLt xs ys = false := by
        have h := h₁'.2 rfl
        simpa using h
      have hys : lexLt ys xs = false := by
        have h := h₂'.2 rfl
        simpa using h
      rw [ih hxs hys]

theorem padNat_length (w n : Nat) : (padNat w n).length = w := by
  induction w generalizing n with
  | zero => rfl
  | succ w ih => simp [padNat, ih]

theorem digitChar_lt_iff : ∀ x < 10, ∀ y < 10,
    (digitChar x < digitChar y ↔ x < y) := by
  decide

theorem digitChar_inj_iff : ∀ x < 10, ∀ y < 10,
    (digitChar x = digitChar y ↔ x = y) := by
  decide

theorem padNat_lt_iff (w : Nat) : ∀ a b, a < 10 ^ w → b < 10 ^ w →
    (lexLt (padNat w a) (padNat w b) = true ↔ a < b) := by
  induction w with
  | zero =>
    intro a b ha hb
    simp only [pow_zero, Nat.lt_one_iff] at ha hb
    subst ha
    subst hb
    simp [padNat, lexLt]
  | succ w ih =>
    intro a b ha hb
    have hp : (0 : Nat) < 10 ^ w := Nat.pos_pow_of_pos w (by norm_num)
    have hqa : a / 10 ^ w < 10 := by
      rw [Nat.div_lt_iff_lt_mul hp]
      calc a < 10 ^ (w + 1) := ha
        _ = 10 * 10 ^ w := by ring
    have hqb : b / 10 ^ w < 10 := by
      rw [Nat.div_lt_iff_lt_mul hp]
      calc b < 10 ^ (w + 1) := hb
        _ = 10 * 10 ^ w := by ring
    simp only [padNat, lexLt_cons_iff]
    rw [digitChar_lt_iff _ hqa _ hqb, digitChar_inj_iff _ hqa _ hqb,
      ih _ _ (Nat.mod_lt _ hp) (Nat.mod_lt _ hp)]
    constructor
    · rintro (h | ⟨heq, hlt⟩)
      · by_contra hab
        exact absurd (Nat.div_le_div_right (not_lt.mp hab)) (not_le.mpr h)
      · have e₁ := Nat.div_add_mod a (10 ^ w)
        have e₂ := Nat.div_add_mod b (10 ^ w)
        rw [heq] at e₁
        omega
    · intro hab
      by_cases hq : a / 10 ^ w < b / 10 ^ w
      · exact Or.inl hq
      · have hq' : a / 10 ^ w = b / 10 ^ w :=
          le_antisymm (Nat.div_le_div_right (le_of_lt hab)) (not_lt.mp hq)
        refine Or.inr ⟨hq', ?_⟩
        have e₁ := Nat.div_add_mod a (10 ^ w)
        have e₂ := Nat.div_add_mod b (10 ^ w)
        rw [hq'] at e₁
        omega

theorem padNat_inj_iff (w a b : Nat) (ha : a < 10 ^ w) (hb : b < 10 ^ w) :
    padNat w a = padNat w b ↔ a = b := by
  constructor
  · intro h
    by_contra hne
    rcases Nat.lt_or_ge a b with hlt | hge
    · have := (padNat_lt_iff w a b ha hb).mpr hlt
      rw [h] at this
      simp [lexLt_irrefl] at this
    · have hlt : b < a := lt_of_le_of_ne hge (fun he => hne he.symm)
      have := (padNat_lt_iff w b a hb ha).mpr hlt
      rw [h] at this
      simp [lexLt_irrefl] at this
  · rintro rfl
    rfl

theorem lexLt_append (p q r s : List Char) (h : p.length = q.length) :
    lexLt (p ++ r) (q ++ s) = true ↔
      lexLt p q = true ∨ (p = q ∧ lexLt r s = true) := by
  induction p generalizing q with
  | nil =>
    cases q with
    | nil => simp [lexLt]
    | cons y ys => simp at h
  | cons x xs ih =>
    cases q with
    | nil => simp at h
    | cons y ys =>
      simp only [List.length_cons, Nat.succ.injEq] at h
      simp only [List.cons_append, lexLt_cons_iff, ih ys h, List.cons_eq_cons]
      constructor
      · rintro (hx | ⟨rfl, hrec | ⟨rfl, hr⟩⟩)
        · exact Or.inl (Or.inl hx)
        · exact Or.inl (Or.inr ⟨rfl, hrec⟩)
        · exact Or.inr ⟨⟨rfl, rfl⟩, hr⟩
      · rintro ((hx | ⟨rfl, hrec⟩) | ⟨⟨rfl, rfl⟩, hr⟩)
        · exact Or.inl hx
        · exact Or.inr ⟨rfl, Or.inl hrec⟩
        · exact Or.inr ⟨rfl, Or.inr ⟨rfl, hr⟩⟩

theorem natListLt_cons_iff (x y : Nat) (xs ys : List Nat) :
    natListLt (x :: xs) (y :: ys) = true ↔
      x < y ∨ (x = y ∧ natListLt xs ys = true) := by
  simp only [natListLt]
  by_cases h₁ : x < y
  · simp [h₁]
  · by_cases h₂ : y < x
    · have : x ≠ y := by omega
      simp [h₁, h₂, this]
    · have hxy : x = y := by omega
      subst hxy
      simp [h₁]

theorem isoChars_lt_iff (d₁ d₂ : DateTime) (h₁ : validDT d₁)
    (h₂ : validDT d₂) :
    lexLt d₁.isoChars d₂.isoChars = true ↔ dtLt d₁ d₂ = true := by
  obtain ⟨hy₁, hmo₁, hd₁, hh₁, hmi₁, hs₁, hu₁⟩ := h₁
  obtain ⟨hy₂, hmo₂, hd₂, hh₂, hmi₂, hs₂, hu₂⟩ := h₂
  have p4 : (10 : Nat) ^ 4 = 10000 := by norm_num
  have p2 : (10 : Nat) ^ 2 = 100 := by norm_num
  have p6 : (10 : Nat) ^ 6 = 1000000 := by norm_num
  have hy₁' : d₁.year < 10 ^ 4 := by rw [p4]; exact hy₁
  have hy₂' : d₂.year < 10 ^ 4 := by rw [p4]; exact hy₂
  have hmo₁' : d₁.month < 10 ^ 2 := by rw [p2]; exact hmo₁
  have hmo₂' : d₂.month < 10 ^ 2 := by rw [p2]; exact hmo₂
  have hd₁' : d₁.day < 10 ^ 2 := by rw [p2]; exact hd₁
  have hd₂' : d₂.day < 10 ^ 2 := by rw [p2]; exact hd₂
  have hh₁' : d₁.hour < 10 ^ 2 := by rw [p2]; exact hh₁
  have hh₂' : d₂.hour < 10 ^ 2 := by rw [p2]; exact hh₂
  have hmi₁' : d₁.minute < 10 ^ 2 := by rw [p2]; exact hmi₁
  have hmi₂' : d₂.minute < 10 ^ 2 := by rw [p2]; exact hmi₂
  have hs₁' : d₁.second < 10 ^ 2 := by rw [p2]; exact hs₁
  have hs₂' : d₂.second < 10 ^ 2 := by rw [p2]; exact hs₂
  have hu₁' : d₁.microsecond < 10 ^ 6 := by rw [p6]; exact hu₁
  have hu₂' : d₂.microsecond < 10 ^ 6 := by rw [p6]; exact hu₂
  have hus : (lexLt
      (if d₁.microsecond = 0 then [] else '.' :: padNat 6 d₁.microsecond)
      (if d₂.microsecond = 0 then [] else '.' :: padNat 6 d₂.microsecond) =
        true) ↔ d₁.microsecond < d₂.microsecond := by
    by_cases e₁ : d₁.microsecond = 0
    · by_cases e₂ : d₂.microsecond = 0
      · simp [e₁, e₂, lexLt]
      · simp [e₁, e₂, lexLt, Nat.pos_of_ne_zero e₂]
    · by_cases e₂ : d₂.microsecond = 0
      · simp [e₁, e₂, lexLt]
      · simp only [e₁, e₂, if_neg, not_false_iff]
        rw [lexLt_cons_same, padNat_lt_iff 6 _ _ hu₁' hu₂']
  simp only [DateTime.isoChars, dtLt, DateTime.key]
  rw [lexLt_append (padNat 4 d₁.year) (padNat 4 d₂.year) _ _
        (by simp [padNat_length]),
      padNat_lt_iff 4 _ _ hy₁' hy₂', padNat_inj_iff 4 _ _ hy₁' hy₂',
      lexLt_cons_same,
      lexLt_append (padNat 2 d₁.month) (padNat 2 d₂.month) _ _
        (by simp [padNat_length]),
      padNat_lt_iff 2 _ _ hmo₁' hmo₂', padNat_inj_iff 2 _ _ hmo₁' hmo₂',
      lexLt_cons_same,
      lexLt_append (padNat 2 d₁.day) (padNat 2 d₂.day) _ _
        (by simp [padNat_length]),
      padNat_lt_iff 2 _ _ hd₁' hd₂', padNat_inj_iff 2 _ _ hd₁' hd₂',
      lexLt_cons_same,
      lexLt_append (padNat 2 d₁.hour) (padNat 2 d₂.hour) _ _
        (by simp [padNat_length]),
      padNat_lt_iff 2 _ _ hh₁' hh₂', padNat_inj_iff 2 _ _ hh₁' hh₂',
      lexLt_cons_same,
      lexLt_append (padNat 2 d₁.minute) (padNat 2 d₂.minute) _ _
        (by simp [padNat_length]),
      padNat_lt_iff 2 _ _ hmi₁' hmi₂', padNat_inj_iff 2 _ _ hmi₁' hmi₂',
      lexLt_cons_same,
      lexLt_append (padNat 2 d₁.second) (padNat 2 d₂.second) _ _
        (by simp [padNat_length]),
      padNat_lt_iff 2 _ _ hs₁' hs₂', padNat_inj_iff 2 _ _ hs₁' hs₂',
      hus,
      natListLt_cons_iff, natListLt_cons_iff, natListLt_cons_iff,
      natListLt_cons_iff, natListLt_cons_iff, natListLt_cons_iff,
      natListLt_cons_iff]
  simp [natListLt]

/-- C7: `list_stories` returns exactly one summary entry per cached
story (a permutation of the per-entry summaries, each carrying id,
title, scene count, creation time, genre and age group), and the
returned list is sorted by creation time, newest first: whenever entry
`e₁` precedes entry `e₂`, any timestamps (with fields in their printable
ranges) whose ISO strings are the entries' `created_at` values satisfy
`e₂`'s time ≤ `e₁`'s time.  (The code sorts by the ISO-format string;
the preceding lemmas show that string order coincides with
chronological order.) -/
theorem c7_list_stories_sorted_newest_first (st : CacheState) :
    (list_stories st).Perm (st.stories.map entryOf) ∧
    (list_stories st).Pairwise (fun e₁ e₂ =>
      ∀ dt₁ dt₂, validDT dt₁ → validDT dt₂ →
        dt₁.isoformat = e₁.created_at → dt₂.isoformat = e₂.created_at →
        dtLt dt₁ dt₂ = false) := by
  constructor
  · exact List.mergeSort_perm _ _
  · have htrans : ∀ a b c : StoryListEntry,
        (! lexLt a.created_at.data b.created_at.data) = true →
        (! lexLt b.created_at.data c.created_at.data) = true →
        (! lexLt a.created_at.data c.created_at.data) = true := by
      intro a b c hab hbc
      simp only [Bool.not_eq_true'] at hab hbc ⊢
      by_contra hac
      have hac' : lexLt a.created_at.data c.created_at.data = true := by
        cases hl : lexLt a.created_at.data c.created_at.data
        · exact absurd hl hac
        · rfl
      by_cases hba : lexLt b.created_at.data a.created_at.data = true
      · have h := lexLt_trans hba hac'
        rw [hbc] at h
        simp at h
      · have hba' : lexLt b.created_at.data a.created_at.data = false := by
          cases hl : lexLt b.created_at.data a.created_at.data
          · rfl
          · exact absurd hl hba
        have heq := lexLt_eq_of_not hab hba'
        rw [heq, hbc] at hac'
        simp at hac'
    have htotal : ∀ a b : StoryListEntry,
        ((! lexLt a.created_at.data b.created_at.data) ||
          (! lexLt b.created_at.data a.created_at.data)) = true := by
      intro a b
      by_contra h
      simp only [Bool.or_eq_true, Bool.not_eq_true', not_or] at h
      obtain ⟨h₁, h₂⟩ := h
      have h₁' : lexLt a.created_at.data b.created_at.data = true := by
        cases hl : lexLt a.created_at.data b.created_at.data
        · exact absurd hl h₁
        · rfl
      have h₂' : lexLt b.created_at.data a.created_at.data = true := by
        cases hl : lexLt b.created_at.data a.created_at.data
        · exact absurd hl h₂
        · rfl
      have h := lexLt_trans h₁' h₂'
      rw [lexLt_irrefl] at h
      simp at h
    have hpair := List.sorted_mergeSort htrans htotal (st.stories.map entryOf)
    unfold list_stories
    refine hpair.imp ?_
    intro a b hab dt₁ dt₂ hv₁ hv₂ hi₁ hi₂
    simp only [Bool.not_eq_true'] at hab
    have e₁ : a.created_at.data = dt₁.isoChars := by rw [← hi₁]; rfl
    have e₂ : b.created_at.data = dt₂.isoChars := by rw [← hi₂]; rfl
    rw [e₁, e₂] at hab
    cases hl : dtLt dt₁ dt₂
    · rfl
    · have h := (isoChars_lt_iff dt₁ dt₂ hv₁ hv₂).mpr hl
      rw [hab] at h
      simp at h

/-- Witness for C7: on the two-story cache (already stored newest
first, so the stable sort keeps the order) the pairwise guarantee
instantiated at the stories' own timestamps says the first entry's
creation time is not less than the second's. -/
theorem c7_list_stories_sorted_newest_first_witness :
    (validDT exDT2 ∧ validDT exDT ∧
      DateTime.isoformat exDT2 = (entryOf ("story-2", exStory2)).created_at ∧
      DateTime.isoformat exDT = (entryOf ("story-1", exStory)).created_at) ∧
    dtLt exDT2 exDT = false := by
  refine ⟨⟨by simp only [validDT]; decide, by simp only [validDT]; decide,
    by decide, by decide⟩, ?_⟩
  have hlist : list_stories exCache2 =
      [entryOf ("story-2", exStory2), entryOf ("story-1", exStory)] := by
    unfold list_stories
    exact List.mergeSort_of_sorted (by decide)
  have hp := (c7_list_stories_sorted_newest_first exCache2).2
  rw [hlist] at hp
  rcases List.pairwise_cons.mp hp with ⟨hR, _⟩
  exact hR (entryOf ("story-1", exStory)) (by simp) exDT2 exDT
    (by simp only [validDT]; decide) (by simp only [validDT]; decide)
    (by decide) (by decide)
